import Mathlib

/-!
cartController: a shallow embedding of the cart request handlers.

Source: `src/controllers/controllerDb/cartController.js`.

The seven handlers of `cartController` are embedded as pure functions from a
request and a service oracle to the ordered list of observable events
(service calls, `res.render`, `res.status(..).json`, `next`) together with the
completion of the `async` function (its return value, or the value its promise
rejects with).

Modelling boundaries, stated once:
* JavaScript values are plain data (`JSVal`): no getters, proxies, symbols or
  bigints; objects and arrays carry a reference number used by `===`.
* Numbers are kept abstract (`Runtime.add`, `Runtime.mul`, ...), so nothing
  depends on floating-point rounding.
* `req.params` is always an object (the router guarantees it); `req.body` and
  `req.user` are arbitrary values, `undefined` included.
* `res.render`, `res.status`, `res.json` and `next` record an event and return.
-/

namespace CartController

/-! ## JavaScript values -/

/-- A JavaScript data value over a number type `N`. -/
inductive JSVal (N : Type) where
  | undefined : JSVal N
  | null : JSVal N
  | bool (b : Bool) : JSVal N
  | num (n : N) : JSVal N
  | str (s : String) : JSVal N
  | obj (ref : Nat) (props : List (String × JSVal N)) : JSVal N
  | arr (ref : Nat) (elems : List (JSVal N)) : JSVal N

/-- The own properties of an object, in insertion order. -/
abbrev Props (N : Type) := List (String × JSVal N)

/-- Reading property `k` of a property list: `undefined` when absent. -/
def Props.prop {N : Type} : Props N → String → JSVal N
  | [], _ => .undefined
  | (k', v) :: rest, k => if k' = k then v else Props.prop rest k

namespace JSVal

variable {N : Type}

/-- The values on which a property read throws: `undefined` and `null`. -/
def isNullish : JSVal N → Bool
  | .undefined => true
  | .null => true
  | _ => false

/-- The operator `typeof`. -/
def typeof : JSVal N → String
  | .undefined => "undefined"
  | .null => "object"
  | .bool _ => "boolean"
  | .num _ => "number"
  | .str _ => "string"
  | .obj _ _ => "object"
  | .arr _ _ => "object"

/-- Reading property `k` of a value that is not nullish. Only the data
properties of objects are modelled; every other value has none of the
property names the handlers read. -/
def prop : JSVal N → String → JSVal N
  | .obj _ ps, k => Props.prop ps k
  | _, _ => .undefined

end JSVal

/-! ## Errors -/

/-- Modelled from the spec: the enumeration `EErrors` of
`services/errors/enums.js`, "a fixed enumeration including
INVALID_IDS_ERROR, UNAUTHORIZED_ERROR, DATABASE_ERROR"; `OTHER` stands for the
members the controller never names. -/
inductive EErrors where
  | INVALID_IDS_ERROR
  | UNAUTHORIZED_ERROR
  | DATABASE_ERROR
  | OTHER (tag : Nat)
  deriving DecidableEq, Repr

/-- Modelled from the spec: the class `CustomError` of
`services/errors/CustomError.js`, "a typed error value with fields
{name, message, cause, code}". -/
structure CustomError (N : Type) where
  name : String
  message : JSVal N
  cause : JSVal N
  code : EErrors

/-- A thrown value: `custom e` is an instance of `CustomError`, `value v` is
anything else (`error instanceof CustomError` is false). -/
inductive Thrown (N : Type) where
  | custom (e : CustomError N) : Thrown N
  | value (v : JSVal N) : Thrown N

/-- The `TypeError` object the engine throws; the message text is
engine-specific and nothing below depends on it. -/
def typeError {N : Type} (msg : String) : JSVal N :=
  .obj 0 [("name", .str "TypeError"), ("message", .str msg)]

/-! ## The runtime: numbers, string conversion and the error-info helpers -/

/-- The parts of the environment the controller uses but does not define:
number arithmetic, `ToNumber`, `ToString`, and the two helpers of
`services/errors/info.js`, which are taken to return a value for every
argument. The laws are those of ECMAScript numbers: `NaN` absorbs `*` and `+`,
`ToNumber(undefined)` is `NaN`, `ToNumber` is the identity on numbers, and
`NaN` is not `0`. -/
structure Runtime (N : Type) where
  zero : N
  nan : N
  add : N → N → N
  mul : N → N → N
  /-- The falsy numbers: `+0`, `-0` and `NaN`. -/
  isFalsy : N → Bool
  /-- Strict equality `===` on numbers. -/
  eq : N → N → Bool
  toNumber : JSVal N → N
  toStr : JSVal N → String
  generateCartIdError : Props N → JSVal N
  generatePropertiesError : Props N → JSVal N
  mul_nan : ∀ x, mul nan x = nan
  add_nan : ∀ x, add x nan = nan
  toNumber_undefined : toNumber .undefined = nan
  toNumber_num : ∀ n, toNumber (.num n) = n
  nan_ne_zero : nan ≠ zero

namespace JSVal

variable {N : Type}

/-- The conversion `ToBoolean`: `!v` is `!(truthy v)`. -/
def truthy (rt : Runtime N) : JSVal N → Bool
  | .undefined => false
  | .null => false
  | .bool b => b
  | .num n => !rt.isFalsy n
  | .str s => s != ""
  | .obj _ _ => true
  | .arr _ _ => true

/-- The operator `===`: primitives by value, objects and arrays by reference. -/
def strictEq (rt : Runtime N) : JSVal N → JSVal N → Bool
  | .undefined, .undefined => true
  | .null, .null => true
  | .bool a, .bool b => a == b
  | .num a, .num b => rt.eq a b
  | .str a, .str b => a == b
  | .obj r _, .obj r' _ => r == r'
  | .arr r _, .arr r' _ => r == r'
  | _, _ => false

end JSVal

/-! ## Requests, service calls, events -/

/-- The parts of the request the handlers read. -/
structure Request (N : Type) where
  params : Props N
  body : JSVal N
  user : JSVal N

/-- One call into `cartService` or `productService`, with its arguments. -/
inductive ServiceCall (N : Type) where
  | createCart : ServiceCall N
  | getCartById (cid : JSVal N) : ServiceCall N
  | addProductToCart (cid pid : JSVal N) : ServiceCall N
  | deleteProductFromCart (cid pid : JSVal N) : ServiceCall N
  | updateCart (cid items : JSVal N) : ServiceCall N
  | updateProductQuantityInCart (cid pid quantity : JSVal N) : ServiceCall N
  | deleteAllProductsFromCart (cid : JSVal N) : ServiceCall N
  | getProductById (pid : JSVal N) : ServiceCall N

/-- The services as an oracle: each awaited call resolves with a value or
rejects with a thrown value. -/
abbrev Service (N : Type) := ServiceCall N → Except (Thrown N) (JSVal N)

/-- Modelled from the spec: the class `CartDTO` of `Dto/cartDto.js`,
"identifier + reshaped product list"; `new CartDTO(id, products)` stores its
two arguments. -/
structure CartDTO (N : Type) where
  id : JSVal N
  products : List (Props N)

/-- The data object handed to `res.render`; `cartId` is `none` when the
object literal has no such key. -/
structure ViewData (N : Type) where
  cart : CartDTO N
  cartId : Option (JSVal N)
  total : N

/-- An observable effect of a handler. -/
inductive Event (N : Type) where
  | call (c : ServiceCall N) : Event N
  | render (view : String) (data : ViewData N) : Event N
  | json (status : Nat) (body : CartDTO N) : Event N
  | next (e : CustomError N) : Event N

/-- A computation that logs events and either yields a value or throws. -/
structure Run (N : Type) (α : Type) where
  events : List (Event N)
  result : Except (Thrown N) α

namespace Run

variable {N : Type} {α β : Type}

/-- Sequencing: the second computation runs only if the first did not throw. -/
def andThen (m : Run N α) (f : α → Run N β) : Run N β :=
  match m.result with
  | .ok a => ⟨m.events ++ (f a).events, (f a).result⟩
  | .error t => ⟨m.events, .error t⟩

instance : Monad (Run N) where
  pure a := ⟨[], .ok a⟩
  bind := andThen

/-- The statement `throw t`. -/
def throwIt (t : Thrown N) : Run N α := ⟨[], .error t⟩

/-- Record one event. -/
def emit (e : Event N) : Run N Unit := ⟨[e], .ok ()⟩

/-- Lift a computation without events. -/
def lift (r : Except (Thrown N) α) : Run N α := ⟨[], r⟩

/-- The statement `try { m } catch (error) { h error }`. -/
def tryCatch (m : Run N α) (h : Thrown N → Run N α) : Run N α :=
  match m.result with
  | .ok a => ⟨m.events, .ok a⟩
  | .error t => ⟨m.events ++ (h t).events, (h t).result⟩

end Run

/-! ## Primitive steps shared by the handlers -/

section Steps

variable {N : Type} {α β ε : Type}

/-- The expression `await svc.op(args)`: the call is logged, then its outcome
is the oracle's. -/
def await (svc : Service N) (c : ServiceCall N) : Run N (JSVal N) :=
  ⟨[.call c], svc c⟩

/-- The property read `v.k`: a `TypeError` on `undefined` and `null`. -/
def getProp (v : JSVal N) (k : String) : Except (Thrown N) (JSVal N) :=
  if v.isNullish then
    .error (.value (typeError "Cannot read properties of undefined or null"))
  else
    .ok (v.prop k)

/-- Apply a callback to each element in order; the first throw aborts. -/
def mapExcept (f : α → Except ε β) : List α → Except ε (List β)
  | [] => .ok []
  | x :: xs =>
    match f x with
    | .error e => .error e
    | .ok y =>
      match mapExcept f xs with
      | .error e => .error e
      | .ok ys => .ok (y :: ys)

/-- The call `v.map(f)`: defined on arrays only; on `undefined` and `null` the
read of `map` throws, on any other value `map` is not a function. -/
def arrayMap (v : JSVal N) (f : JSVal N → Except (Thrown N) β) :
    Except (Thrown N) (List β) :=
  match v with
  | .arr _ xs => mapExcept f xs
  | .undefined => .error (.value (typeError "Cannot read properties of undefined or null"))
  | .null => .error (.value (typeError "Cannot read properties of undefined or null"))
  | _ => .error (.value (typeError "map is not a function"))

/-- The callback of `getCartById` and `updateCart`:
`const { _id, title, description, price, thumbnail, code, stock } = product._id;`
followed by the object literal with those seven fields and
`quantity: product.quantity`. -/
def fullEntry (product : JSVal N) : Except (Thrown N) (Props N) :=
  match getProp product "_id" with
  | .error t => .error t
  | .ok ref =>
    if ref.isNullish then
      .error (.value (typeError "Cannot destructure undefined or null"))
    else
      .ok [("_id", ref.prop "_id"), ("title", ref.prop "title"),
           ("description", ref.prop "description"), ("price", ref.prop "price"),
           ("thumbnail", ref.prop "thumbnail"), ("code", ref.prop "code"),
           ("stock", ref.prop "stock"), ("quantity", product.prop "quantity")]

/-- The callback of `addProductToCart`, `deleteProductFromCart` and
`updateProductQuantityInCart`:
`(product) => ({ id: product._id, quantity: product.quantity })`. -/
def refEntry (product : JSVal N) : Except (Thrown N) (Props N) :=
  match getProp product "_id" with
  | .error t => .error t
  | .ok ref => .ok [("id", ref), ("quantity", product.prop "quantity")]

/-- The reduction
`products.reduce((acc, product) => acc + product.price * product.quantity, 0)`. -/
def totalOf (rt : Runtime N) (products : List (Props N)) : N :=
  products.foldl
    (fun acc product =>
      rt.add acc (rt.mul (rt.toNumber (Props.prop product "price"))
                         (rt.toNumber (Props.prop product "quantity"))))
    rt.zero

/-- The test `!id || typeof id !== "string"` on one identifier. -/
def invalidId (rt : Runtime N) (id : JSVal N) : Bool :=
  !id.truthy rt || id.typeof != "string"

/-- The test
`!cid || !pid || typeof cid !== "string" || typeof pid !== "string"`. -/
def invalidIds (rt : Runtime N) (cid pid : JSVal N) : Bool :=
  !cid.truthy rt || !pid.truthy rt || cid.typeof != "string" || pid.typeof != "string"

/-- The `DATABASE_ERROR` wrapper built by six of the seven catch blocks. -/
def databaseError (cause : JSVal N) : CustomError N :=
  { name := "Database Error"
    message := .str "An error occurred while communicating with the database."
    cause := cause
    code := .DATABASE_ERROR }

/-- The catch block shared by every handler except `addProductToCart`. -/
def catchBlock (error : Thrown N) : Run N (Option (CartDTO N)) :=
  match error with
  | .custom e => Run.andThen (Run.emit (.next e)) (fun _ => pure none)
  | .value v => Run.andThen (Run.emit (.next (databaseError v))) (fun _ => pure none)

/-- The catch block of `addProductToCart`: the wrapper takes
`message: error.message`, a property read on the caught value. -/
def catchBlockAdd (error : Thrown N) : Run N (Option (CartDTO N)) :=
  match error with
  | .custom e => Run.andThen (Run.emit (.next e)) (fun _ => pure none)
  | .value v =>
    Run.andThen (Run.lift (getProp v "message")) (fun message =>
      Run.andThen
        (Run.emit (.next { name := "Database Error", cause := v,
                            message := message, code := .DATABASE_ERROR }))
        (fun _ => pure none))

end Steps

/-! ## The handlers -/

section Handlers

variable {N : Type}

/-- The try block of `createCart` (lines 14-16). -/
def createCartTry (svc : Service N) : Run N (Option (CartDTO N)) := do
  let newCart ← await svc .createCart
  let id ← Run.lift (getProp newCart "id")
  let cartDTO : CartDTO N := { id := id, products := [] }
  return some cartDTO

/-- The handler `cartController.createCart`. -/
def createCart (_rt : Runtime N) (svc : Service N) (_req : Request N) :
    Run N (Option (CartDTO N)) :=
  Run.tryCatch (createCartTry svc) catchBlock

/-- The try block of `getCartById` (lines 34-63). -/
def getCartByIdTry (rt : Runtime N) (svc : Service N) (req : Request N) :
    Run N (Option (CartDTO N)) := do
  let cartId := Props.prop req.params "cid"
  if invalidId rt cartId then
    Run.throwIt (.custom
      { name := "Invalid ID Error"
        cause := rt.generateCartIdError [("cartId", cartId)]
        message := .str "Error trying to get cart by Id"
        code := .INVALID_IDS_ERROR })
  let cart ← await svc (.getCartById cartId)
  let items ← Run.lift (getProp cart "products")
  let products ← Run.lift (arrayMap items fullEntry)
  let total := totalOf rt products
  let cartDTO : CartDTO N := { id := cart.prop "_id", products := products }
  Run.emit (.render "carts" { cart := cartDTO, cartId := some (cart.prop "_id"), total := total })
  return none

/-- The handler `cartController.getCartById`. -/
def getCartById (rt : Runtime N) (svc : Service N) (req : Request N) :
    Run N (Option (CartDTO N)) :=
  Run.tryCatch (getCartByIdTry rt svc req) catchBlock

/-- The guard `req.user.role === "premium" && product.owner === req.user.email`
of `addProductToCart`, with the short-circuit of `&&`. -/
def ownsProduct (rt : Runtime N) (user product : JSVal N) : Except (Thrown N) Bool :=
  match getProp user "role" with
  | .error t => .error t
  | .ok role =>
    if JSVal.strictEq rt role (.str "premium") then
      match getProp product "owner" with
      | .error t => .error t
      | .ok owner => .ok (JSVal.strictEq rt owner (user.prop "email"))
    else
      .ok false

/-- The `UNAUTHORIZED_ERROR` raised by `addProductToCart`; its cause is the
template string built from `product.owner` and `req.user.email`. -/
def unauthorizedError (rt : Runtime N) (user product : JSVal N) : CustomError N :=
  { name := "Unauthorized Error"
    message := .str "No puedes agregar tu propio producto al carrito"
    code := .UNAUTHORIZED_ERROR
    cause := .str ("Product owner: " ++ rt.toStr (product.prop "owner")
                    ++ ", User email: " ++ rt.toStr (user.prop "email")) }

/-- The try block of `addProductToCart` (lines 81-111). -/
def addProductToCartTry (rt : Runtime N) (svc : Service N) (req : Request N) :
    Run N (Option (CartDTO N)) := do
  let cid := Props.prop req.params "cid"
  let pid := Props.prop req.params "pid"
  if invalidIds rt cid pid then
    Run.throwIt (.custom
      { name := "Invalid Ids Error"
        cause := rt.generatePropertiesError [("cid", cid), ("pid", pid)]
        message := .str "Error trying to add Product to cart"
        code := .INVALID_IDS_ERROR })
  let product ← await svc (.getProductById pid)
  let own ← Run.lift (ownsProduct rt req.user product)
  if own then
    Run.throwIt (.custom (unauthorizedError rt req.user product))
  let cart ← await svc (.addProductToCart cid pid)
  let items ← Run.lift (getProp cart "products")
  let products ← Run.lift (arrayMap items refEntry)
  let total := totalOf rt products
  let cartDTO : CartDTO N := { id := cart.prop "id", products := products }
  Run.emit (.render "carts" { cart := cartDTO, cartId := none, total := total })
  return none

/-- The handler `cartController.addProductToCart`. -/
def addProductToCart (rt : Runtime N) (svc : Service N) (req : Request N) :
    Run N (Option (CartDTO N)) :=
  Run.tryCatch (addProductToCartTry rt svc req) catchBlockAdd

/-- The try block of `deleteProductFromCart` (lines 128-143). -/
def deleteProductFromCartTry (rt : Runtime N) (svc : Service N) (req : Request N) :
    Run N (Option (CartDTO N)) := do
  let cid := Props.prop req.params "cid"
  let pid := Props.prop req.params "pid"
  if invalidIds rt cid pid then
    Run.throwIt (.custom
      { name := "Invalid IDS Error"
        cause := rt.generatePropertiesError [("cid", cid), ("pid", pid)]
        message := .str "Error trying to delete Product from Cart"
        code := .INVALID_IDS_ERROR })
  let cart ← await svc (.deleteProductFromCart cid pid)
  let items ← Run.lift (getProp cart "products")
  let products ← Run.lift (arrayMap items refEntry)
  let cartDTO : CartDTO N := { id := cart.prop "id", products := products }
  Run.emit (.json 200 cartDTO)
  return none

/-- The handler `cartController.deleteProductFromCart`. -/
def deleteProductFromCart (rt : Runtime N) (svc : Service N) (req : Request N) :
    Run N (Option (CartDTO N)) :=
  Run.tryCatch (deleteProductFromCartTry rt svc req) catchBlock

/-- The try block of `updateCart` (lines 162-188); `req.body.products` is
read before the identifier is checked. -/
def updateCartTry (rt : Runtime N) (svc : Service N) (req : Request N) :
    Run N (Option (CartDTO N)) := do
  let cartId := Props.prop req.params "cid"
  let updateData ← Run.lift (getProp req.body "products")
  if invalidId rt cartId then
    Run.throwIt (.custom
      { name := "Invalid Id Error"
        cause := rt.generateCartIdError [("cartId", cartId)]
        message := .str "Error trying to update Cart"
        code := .INVALID_IDS_ERROR })
  let cart ← await svc (.updateCart cartId updateData)
  let items ← Run.lift (getProp cart "products")
  let products ← Run.lift (arrayMap items fullEntry)
  let cartDTO : CartDTO N := { id := cart.prop "_id", products := products }
  Run.emit (.json 200 cartDTO)
  return none

/-- The handler `cartController.updateCart`. -/
def updateCart (rt : Runtime N) (svc : Service N) (req : Request N) :
    Run N (Option (CartDTO N)) :=
  Run.tryCatch (updateCartTry rt svc req) catchBlock

/-- The try block of `updateProductQuantityInCart` (lines 206-226);
`req.body` is destructured after the identifiers are checked. -/
def updateProductQuantityInCartTry (rt : Runtime N) (svc : Service N) (req : Request N) :
    Run N (Option (CartDTO N)) := do
  let cid := Props.prop req.params "cid"
  let pid := Props.prop req.params "pid"
  if invalidIds rt cid pid then
    Run.throwIt (.custom
      { name := "Invalid IDS Error"
        cause := rt.generatePropertiesError [("cid", cid), ("pid", pid)]
        message := .str "Error trying to update Product quantity in cart"
        code := .INVALID_IDS_ERROR })
  let quantity ← Run.lift (getProp req.body "quantity")
  let cart ← await svc (.updateProductQuantityInCart cid pid quantity)
  let items ← Run.lift (getProp cart "products")
  let products ← Run.lift (arrayMap items refEntry)
  let cartDTO : CartDTO N := { id := cart.prop "id", products := products }
  Run.emit (.json 200 cartDTO)
  return none

/-- The handler `cartController.updateProductQuantityInCart`. -/
def updateProductQuantityInCart (rt : Runtime N) (svc : Service N) (req : Request N) :
    Run N (Option (CartDTO N)) :=
  Run.tryCatch (updateProductQuantityInCartTry rt svc req) catchBlock

/-- The try block of `deleteAllProductsCart` (lines 244-255); the helper
receives the object literal `{ cid }`. -/
def deleteAllProductsCartTry (rt : Runtime N) (svc : Service N) (req : Request N) :
    Run N (Option (CartDTO N)) := do
  let cid := Props.prop req.params "cid"
  if invalidId rt cid then
    Run.throwIt (.custom
      { name := "Invalid Id Error"
        cause := rt.generateCartIdError [("cid", cid)]
        message := .str "Error trying to delete all Products Cart"
        code := .INVALID_IDS_ERROR })
  let cart ← await svc (.deleteAllProductsFromCart cid)
  let id ← Run.lift (getProp cart "id")
  let cartDTO : CartDTO N := { id := id, products := [] }
  Run.emit (.json 200 cartDTO)
  return none

/-- The handler `cartController.deleteAllProductsCart`. -/
def deleteAllProductsCart (rt : Runtime N) (svc : Service N) (req : Request N) :
    Run N (Option (CartDTO N)) :=
  Run.tryCatch (deleteAllProductsCartTry rt svc req) catchBlock

/-- The seven keys of the object `cartController`. -/
inductive Handler where
  | createCart
  | getCartById
  | addProductToCart
  | deleteProductFromCart
  | updateCart
  | updateProductQuantityInCart
  | deleteAllProductsCart
  deriving DecidableEq, Repr

/-- The try block of each handler. -/
def Handler.tryBlock (h : Handler) (rt : Runtime N) (svc : Service N) (req : Request N) :
    Run N (Option (CartDTO N)) :=
  match h with
  | .createCart => createCartTry svc
  | .getCartById => getCartByIdTry rt svc req
  | .addProductToCart => addProductToCartTry rt svc req
  | .deleteProductFromCart => deleteProductFromCartTry rt svc req
  | .updateCart => updateCartTry rt svc req
  | .updateProductQuantityInCart => updateProductQuantityInCartTry rt svc req
  | .deleteAllProductsCart => deleteAllProductsCartTry rt svc req

/-- The handler stored under each key. -/
def Handler.run (h : Handler) (rt : Runtime N) (svc : Service N) (req : Request N) :
    Run N (Option (CartDTO N)) :=
  match h with
  | .createCart => CartController.createCart rt svc req
  | .getCartById => CartController.getCartById rt svc req
  | .addProductToCart => CartController.addProductToCart rt svc req
  | .deleteProductFromCart => CartController.deleteProductFromCart rt svc req
  | .updateCart => CartController.updateCart rt svc req
  | .updateProductQuantityInCart => CartController.updateProductQuantityInCart rt svc req
  | .deleteAllProductsCart => CartController.deleteAllProductsCart rt svc req

end Handlers

/-! ## Observations on a finished handler -/

section Observations

variable {N : Type} {α : Type}

/-- The service calls made, in order. -/
def calls (o : Run N α) : List (ServiceCall N) :=
  o.events.filterMap (fun e => match e with | .call c => some c | _ => none)

/-- The errors passed to `next`, in order. -/
def nexts (o : Run N α) : List (CustomError N) :=
  o.events.filterMap (fun e => match e with | .next e => some e | _ => none)

/-- The responses produced (`res.render` and `res.status(..).json`), in order. -/
def responses (o : Run N α) : List (Event N) :=
  o.events.filter (fun e => match e with | .render _ _ => true | .json _ _ => true | _ => false)

/-- The totals handed to `res.render`, in order. -/
def renderedTotals (o : Run N α) : List N :=
  o.events.filterMap (fun e => match e with | .render _ d => some d.total | _ => none)

end Observations

/-! ## A small exact runtime for evaluating the handlers on concrete requests -/

/-- Numbers of the test runtime: `none` is `NaN`, `some i` the integer `i`. -/
abbrev TNum := Option Int

/-- The test runtime: exact integer arithmetic with an absorbing `NaN`.
`ToNumber` and `ToString` are exact on `undefined`, `null`, booleans, numbers,
integer literals and plain strings, which is all the concrete requests below
use; other strings and non-empty arrays are outside its range. -/
def testRuntime : Runtime TNum where
  zero := some 0
  nan := none
  add a b := match a, b with
    | some x, some y => some (x + y)
    | _, _ => none
  mul a b := match a, b with
    | some x, some y => some (x * y)
    | _, _ => none
  isFalsy a := match a with
    | some x => x == 0
    | none => true
  eq a b := match a, b with
    | some x, some y => x == y
    | _, _ => false
  toNumber v := match v with
    | .num n => n
    | .null => some 0
    | .bool true => some 1
    | .bool false => some 0
    | .str s => if s = "" then some 0 else s.toInt?
    | _ => none
  toStr v := match v with
    | .undefined => "undefined"
    | .null => "null"
    | .bool true => "true"
    | .bool false => "false"
    | .num (some i) => toString i
    | .num none => "NaN"
    | .str s => s
    | .obj _ _ => "[object Object]"
    | .arr _ _ => ""
  generateCartIdError ps := .str ("Invalid cart id, received " ++ toString ps.length ++ " key")
  generatePropertiesError ps := .str ("Invalid ids, received " ++ toString ps.length ++ " keys")
  mul_nan := by intro x; rfl
  add_nan := by intro x; cases x <;> rfl
  toNumber_undefined := rfl
  toNumber_num := by intro n; rfl
  nan_ne_zero := by simp

/-! ## Concrete records and requests -/

/-- A populated product owned by `ana@shop.io`. -/
def productPen : JSVal TNum :=
  .obj 4 [("_id", .str "p1"), ("title", .str "Pen"), ("price", .num (some 2)),
          ("owner", .str "ana@shop.io")]

/-- A line item: three pens. -/
def lineItem : JSVal TNum :=
  .obj 3 [("_id", productPen), ("quantity", .num (some 3))]

/-- A cart record with one line item. -/
def cartOneItem : JSVal TNum :=
  .obj 1 [("_id", .str "c1"), ("id", .str "c1"), ("products", .arr 2 [lineItem])]

/-- Services that succeed: the product service returns `productPen`, every
cart operation returns `cartOneItem`. -/
def svcShop : Service TNum := fun c =>
  match c with
  | .getProductById _ => .ok productPen
  | _ => .ok cartOneItem

/-- A `CustomError` raised inside a service. -/
def notFound : CustomError TNum :=
  { name := "Not Found", message := .str "Cart not found", cause := .undefined,
    code := .OTHER 404 }

/-- Services that reject with the `CustomError` `notFound`. -/
def svcNotFound : Service TNum := fun _ => .error (.custom notFound)

/-- A driver error object, not a `CustomError`. -/
def dbDown : JSVal TNum := .obj 9 [("message", .str "connection refused")]

/-- Services that reject with `dbDown`. -/
def svcDown : Service TNum := fun _ => .error (.value dbDown)

/-- A premium user who owns `productPen`. -/
def userOwner : JSVal TNum :=
  .obj 5 [("role", .str "premium"), ("email", .str "ana@shop.io")]

/-- A user who owns nothing. -/
def userOther : JSVal TNum :=
  .obj 6 [("role", .str "user"), ("email", .str "bob@shop.io")]

/-- A request with both identifiers and a body, sent by `userOther`. -/
def reqOther : Request TNum :=
  { params := [("cid", .str "abc"), ("pid", .str "p1")]
    body := .obj 7 [("quantity", .num (some 5)), ("products", .arr 8 [])]
    user := userOther }

/-- The same request sent by `userOwner`. -/
def reqOwner : Request TNum :=
  { params := [("cid", .str "abc"), ("pid", .str "p1")]
    body := .obj 7 [("quantity", .num (some 5)), ("products", .arr 8 [])]
    user := userOwner }

/-- A request with no `cid` and no parsed body (`req.body` is `undefined`). -/
def reqNoBody : Request TNum :=
  { params := [], body := .undefined, user := .undefined }

/-! ## Vocabulary of the statements -/

section Vocabulary

variable {N : Type} {α : Type}

/-- An identifier that passes the check: a non-empty string. -/
def validId (v : JSVal N) : Prop := ∃ s, v = .str s ∧ s ≠ ""

/-- The identifiers each handler requires in `req.params`. -/
def requiredIds : Handler → List String
  | .createCart => []
  | .getCartById => ["cid"]
  | .addProductToCart => ["cid", "pid"]
  | .deleteProductFromCart => ["cid", "pid"]
  | .updateCart => ["cid"]
  | .updateProductQuantityInCart => ["cid", "pid"]
  | .deleteAllProductsCart => ["cid"]

/-- The service calls the specification lists for each handler, in order:
one cart-service operation and, for add-to-cart, `getProductById(pid)` before
it. -/
def expectedCalls (h : Handler) (req : Request N) : List (ServiceCall N) :=
  match h with
  | .createCart => [.createCart]
  | .getCartById => [.getCartById (Props.prop req.params "cid")]
  | .addProductToCart =>
    [.getProductById (Props.prop req.params "pid"),
     .addProductToCart (Props.prop req.params "cid") (Props.prop req.params "pid")]
  | .deleteProductFromCart =>
    [.deleteProductFromCart (Props.prop req.params "cid") (Props.prop req.params "pid")]
  | .updateCart => [.updateCart (Props.prop req.params "cid") (req.body.prop "products")]
  | .updateProductQuantityInCart =>
    [.updateProductQuantityInCart (Props.prop req.params "cid") (Props.prop req.params "pid")
      (req.body.prop "quantity")]
  | .deleteAllProductsCart => [.deleteAllProductsFromCart (Props.prop req.params "cid")]

/-- The documented projection "just id + quantity" of one line item. -/
def refProjection (item : JSVal N) : Props N :=
  [("id", item.prop "_id"), ("quantity", item.prop "quantity")]

/-- The documented projection "full product fields + quantity" of one line
item. -/
def fullProjection (item : JSVal N) : Props N :=
  [("_id", (item.prop "_id").prop "_id"), ("title", (item.prop "_id").prop "title"),
   ("description", (item.prop "_id").prop "description"),
   ("price", (item.prop "_id").prop "price"),
   ("thumbnail", (item.prop "_id").prop "thumbnail"),
   ("code", (item.prop "_id").prop "code"), ("stock", (item.prop "_id").prop "stock"),
   ("quantity", item.prop "quantity")]

/-- The handler produced exactly one response and never called `next`. -/
def EndsInResponse (o : Run N α) : Prop :=
  (responses o).length = 1 ∧ (nexts o).length = 0

/-- The handler called `next` exactly once and produced no response. -/
def EndsInError (o : Run N α) : Prop :=
  (nexts o).length = 1 ∧ (responses o).length = 0

/-- A cart record of the data model: its `products` is the array `items` of
line items, none of which is `null` or `undefined`. -/
def IsCartRecord (cart : JSVal N) (items : List (JSVal N)) : Prop :=
  (∃ r, cart.prop "products" = .arr r items) ∧ ∀ it ∈ items, it.isNullish = false

/-- Every line item references a product: its `_id` is neither `null` nor
`undefined`. -/
def ReferencesProducts (items : List (JSVal N)) : Prop :=
  ∀ it ∈ items, (it.prop "_id").isNullish = false

/-- A successful path: a response was produced, or a DTO was returned. -/
def Succeeded (o : Run N (Option (CartDTO N))) : Prop :=
  (responses o).length = 1 ∨ ∃ dto, o.result = .ok (some dto)

/-- The catch block of each handler. -/
def Handler.recover (h : Handler) (error : Thrown N) : Run N (Option (CartDTO N)) :=
  match h with
  | .addProductToCart => catchBlockAdd error
  | _ => catchBlock error

/-- The thrown value is a `TypeError` raised by the engine. -/
def IsTypeError (t : Thrown N) : Prop := ∃ msg, t = .value (typeError msg)

/-- What the try block `m` of a handler guarantees: it never calls `next`; if
it throws it has produced no response; if it completes it has produced `nresp`
responses, made exactly the calls `expected` with identifiers satisfying
`idsOk`, and returns a DTO exactly when it produced no response; a call that
the service rejects is what the block throws; it makes no call outside
`expected`; and what the block throws is a service rejection, a `CustomError`
or a `TypeError`. -/
structure TrySpec (svc : Service N) (m : Run N (Option (CartDTO N)))
    (expected : List (ServiceCall N)) (idsOk : Prop) (nresp : Nat) : Prop where
  no_next : nexts m = []
  thrown_quiet : ∀ t, m.result = .error t → responses m = []
  ok_shape : ∀ x, m.result = .ok x →
    (responses m).length = nresp ∧ calls m = expected ∧ idsOk
      ∧ (nresp = 1 → x = none) ∧ (nresp = 0 → ∃ dto, x = some dto)
  failing_call : ∀ c ∈ calls m, ∀ t, svc c = .error t → m.result = .error t
  calls_sub : ∀ c ∈ calls m, c ∈ expected
  thrown_origin : ∀ t, m.result = .error t →
    (∃ c ∈ calls m, svc c = .error t) ∨ (∃ e, t = .custom e) ∨ IsTypeError t

end Vocabulary

/-! ## Basic lemmas -/

section Lemmas

variable {N : Type} {α β ε : Type}

@[simp] theorem Run.bind_eq (m : Run N α) (f : α → Run N β) :
    m >>= f = Run.andThen m f := rfl

@[simp] theorem Run.pure_eq (a : α) : (pure a : Run N α) = ⟨[], .ok a⟩ := rfl

@[simp] theorem Run.andThen_ok (es : List (Event N)) (a : α) (f : α → Run N β) :
    Run.andThen ⟨es, .ok a⟩ f = ⟨es ++ (f a).events, (f a).result⟩ := rfl

@[simp] theorem Run.andThen_error (es : List (Event N)) (t : Thrown N) (f : α → Run N β) :
    Run.andThen ⟨es, .error t⟩ f = ⟨es, .error t⟩ := rfl

@[simp] theorem Run.tryCatch_ok (es : List (Event N)) (a : α) (h : Thrown N → Run N α) :
    Run.tryCatch ⟨es, .ok a⟩ h = ⟨es, .ok a⟩ := rfl

@[simp] theorem Run.tryCatch_error (es : List (Event N)) (t : Thrown N)
    (h : Thrown N → Run N α) :
    Run.tryCatch ⟨es, .error t⟩ h = ⟨es ++ (h t).events, (h t).result⟩ := rfl

@[simp] theorem Run.lift_eq (r : Except (Thrown N) α) : Run.lift r = ⟨[], r⟩ := rfl

@[simp] theorem Run.emit_eq (e : Event N) : Run.emit e = ⟨[e], .ok ()⟩ := rfl

@[simp] theorem Run.throwIt_eq (t : Thrown N) :
    (Run.throwIt t : Run N α) = ⟨[], .error t⟩ := rfl

@[simp] theorem await_eq (svc : Service N) (c : ServiceCall N) :
    await svc c = ⟨[.call c], svc c⟩ := rfl

@[simp] theorem strictEq_str (rt : Runtime N) (a b : String) :
    JSVal.strictEq rt (.str a) (.str b) = (a == b) := rfl

theorem getProp_ok (v : JSVal N) (k : String) (h : v.isNullish = false) :
    getProp v k = .ok (v.prop k) := by
  simp [getProp, h]

theorem getProp_ok_iff (v w : JSVal N) (k : String) :
    getProp v k = .ok w ↔ v.isNullish = false ∧ w = v.prop k := by
  cases hv : v.isNullish <;> simp [getProp, hv, eq_comm]

theorem isNullish_of_prop_arr (v : JSVal N) (k : String) (r : Nat) (xs : List (JSVal N))
    (h : v.prop k = .arr r xs) : v.isNullish = false := by
  cases v <;> simp [JSVal.prop, JSVal.isNullish] at h ⊢

theorem invalidId_eq_false_iff (rt : Runtime N) (v : JSVal N) :
    invalidId rt v = false ↔ validId v := by
  cases v <;> simp [invalidId, validId, JSVal.truthy, JSVal.typeof]

theorem invalidIds_eq_false_iff (rt : Runtime N) (c p : JSVal N) :
    invalidIds rt c p = false ↔ validId c ∧ validId p := by
  cases c <;> cases p <;> simp [invalidIds, validId, JSVal.truthy, JSVal.typeof]

theorem mapExcept_ok (f : α → Except ε β) (g : α → β) (xs : List α)
    (h : ∀ x ∈ xs, f x = .ok (g x)) : mapExcept f xs = .ok (xs.map g) := by
  induction xs with
  | nil => rfl
  | cons x xs ih =>
    have hx := h x (List.mem_cons_self x xs)
    have hxs := ih (fun y hy => h y (List.mem_cons_of_mem x hy))
    simp [mapExcept, hx, hxs]

theorem getProp_error (v : JSVal N) (k : String) (t : Thrown N)
    (h : getProp v k = .error t) : IsTypeError t := by
  cases hv : v.isNullish <;> simp [getProp, hv] at h
  exact ⟨_, h.symm⟩

theorem mapExcept_error (f : α → Except ε β) (xs : List α) (e : ε)
    (h : mapExcept f xs = .error e) : ∃ x ∈ xs, f x = .error e := by
  induction xs with
  | nil => simp [mapExcept] at h
  | cons x xs ih =>
    cases hx : f x with
    | error e' =>
      simp [mapExcept, hx] at h
      exact ⟨x, List.mem_cons_self x xs, by rw [hx, h]⟩
    | ok y =>
      cases hxs : mapExcept f xs with
      | error e' =>
        simp [mapExcept, hx, hxs] at h
        obtain ⟨z, hz, hfz⟩ := ih (by rw [hxs, h])
        exact ⟨z, List.mem_cons_of_mem x hz, hfz⟩
      | ok ys => simp [mapExcept, hx, hxs] at h

theorem refEntry_error (item : JSVal N) (t : Thrown N) (h : refEntry item = .error t) :
    IsTypeError t := by
  cases hp : getProp item "_id" with
  | error t' =>
    simp [refEntry, hp] at h
    exact h ▸ getProp_error _ _ _ hp
  | ok ref => simp [refEntry, hp] at h

theorem fullEntry_error (item : JSVal N) (t : Thrown N) (h : fullEntry item = .error t) :
    IsTypeError t := by
  cases hp : getProp item "_id" with
  | error t' =>
    simp [fullEntry, hp] at h
    exact h ▸ getProp_error _ _ _ hp
  | ok ref =>
    cases hr : ref.isNullish <;> simp [fullEntry, hp, hr] at h
    exact ⟨_, h.symm⟩

theorem arrayMap_error (v : JSVal N) (f : JSVal N → Except (Thrown N) β) (t : Thrown N)
    (hf : ∀ x t, f x = .error t → IsTypeError t) (h : arrayMap v f = .error t) :
    IsTypeError t := by
  cases v with
  | arr r xs =>
    obtain ⟨x, -, hx⟩ := mapExcept_error f xs t (by simpa [arrayMap] using h)
    exact hf x t hx
  | _ =>
    simp [arrayMap] at h
    exact ⟨_, h.symm⟩

theorem ownsProduct_error (rt : Runtime N) (user product : JSVal N) (t : Thrown N)
    (h : ownsProduct rt user product = .error t) : IsTypeError t := by
  cases hu : getProp user "role" with
  | error t' =>
    simp [ownsProduct, hu] at h
    exact h ▸ getProp_error _ _ _ hu
  | ok role =>
    cases hr : JSVal.strictEq rt role (.str "premium") with
    | false => simp [ownsProduct, hu, hr] at h
    | true =>
      cases hp : getProp product "owner" with
      | error t' =>
        simp [ownsProduct, hu, hr, hp] at h
        exact h ▸ getProp_error _ _ _ hp
      | ok owner => simp [ownsProduct, hu, hr, hp] at h

theorem isTypeError_not_nullish (t : Thrown N) (h : IsTypeError t) :
    ∃ v, t = .value v ∧ v.isNullish = false := by
  obtain ⟨msg, rfl⟩ := h
  exact ⟨_, rfl, rfl⟩

theorem refEntry_ok (item : JSVal N) (h : item.isNullish = false) :
    refEntry item = .ok (refProjection item) := by
  simp [refEntry, refProjection, getProp_ok _ _ h]

theorem fullEntry_ok (item : JSVal N) (h : item.isNullish = false)
    (href : (item.prop "_id").isNullish = false) :
    fullEntry item = .ok (fullProjection item) := by
  simp [fullEntry, fullProjection, getProp_ok _ _ h, href]

end Lemmas

/-! ## The try blocks, path by path -/

section TryBlocks

variable {N : Type}

theorem createCartTry_spec (svc : Service N) :
    TrySpec svc (createCartTry svc) [.createCart] True 0 := by
  cases hs : svc .createCart with
  | error t => constructor <;> simp [createCartTry, hs, nexts, responses, calls]
  | ok cart =>
    cases hp : getProp cart "id" with
    | error t =>
      have hte := getProp_error _ _ _ hp
      constructor <;> simp [createCartTry, hs, hp, nexts, responses, calls, hte]
    | ok id => constructor <;> simp [createCartTry, hs, hp, nexts, responses, calls]

theorem getCartByIdTry_spec (rt : Runtime N) (svc : Service N) (req : Request N) :
    TrySpec svc (getCartByIdTry rt svc req)
      [.getCartById (Props.prop req.params "cid")]
      (validId (Props.prop req.params "cid")) 1 := by
  cases hid : invalidId rt (Props.prop req.params "cid") with
  | true => constructor <;> simp [getCartByIdTry, hid, nexts, responses, calls]
  | false =>
    have hv := (invalidId_eq_false_iff rt _).1 hid
    cases hs : svc (.getCartById (Props.prop req.params "cid")) with
    | error t => constructor <;> simp [getCartByIdTry, hid, hs, nexts, responses, calls]
    | ok cart =>
      cases hp : getProp cart "products" with
      | error t =>
        have hte := getProp_error _ _ _ hp
        constructor <;> simp [getCartByIdTry, hid, hs, hp, nexts, responses, calls, hte]
      | ok items =>
        cases hm : arrayMap items fullEntry with
        | error t =>
          have hte := arrayMap_error _ _ _ fullEntry_error hm
          constructor <;> simp [getCartByIdTry, hid, hs, hp, hm, nexts, responses, calls, hte]
        | ok products =>
          constructor <;> simp [getCartByIdTry, hid, hs, hp, hm, nexts, responses, calls, hv]

theorem addProductToCartTry_spec (rt : Runtime N) (svc : Service N) (req : Request N) :
    TrySpec svc (addProductToCartTry rt svc req)
      [.getProductById (Props.prop req.params "pid"),
       .addProductToCart (Props.prop req.params "cid") (Props.prop req.params "pid")]
      (validId (Props.prop req.params "cid") ∧ validId (Props.prop req.params "pid")) 1 := by
  cases hid : invalidIds rt (Props.prop req.params "cid") (Props.prop req.params "pid") with
  | true => constructor <;> simp [addProductToCartTry, hid, nexts, responses, calls]
  | false =>
    have hv := (invalidIds_eq_false_iff rt _ _).1 hid
    cases hq : svc (.getProductById (Props.prop req.params "pid")) with
    | error t => constructor <;> simp [addProductToCartTry, hid, hq, nexts, responses, calls]
    | ok product =>
      cases ho : ownsProduct rt req.user product with
      | error t =>
        have hte := ownsProduct_error _ _ _ _ ho
        constructor <;> simp [addProductToCartTry, hid, hq, ho, nexts, responses, calls, hte]
      | ok own =>
        cases own with
        | true =>
          constructor <;> simp [addProductToCartTry, hid, hq, ho, nexts, responses, calls]
        | false =>
          cases hs : svc (.addProductToCart (Props.prop req.params "cid")
              (Props.prop req.params "pid")) with
          | error t =>
            constructor <;>
              simp [addProductToCartTry, hid, hq, ho, hs, nexts, responses, calls]
          | ok cart =>
            cases hp : getProp cart "products" with
            | error t =>
              have hte := getProp_error _ _ _ hp
              constructor <;>
                simp [addProductToCartTry, hid, hq, ho, hs, hp, nexts, responses, calls, hte]
            | ok items =>
              cases hm : arrayMap items refEntry with
              | error t =>
                have hte := arrayMap_error _ _ _ refEntry_error hm
                constructor <;>
                  simp [addProductToCartTry, hid, hq, ho, hs, hp, hm, nexts, responses, calls, hte]
              | ok products =>
                constructor <;>
                  simp [addProductToCartTry, hid, hq, ho, hs, hp, hm, nexts, responses, calls,
                    hv]

theorem deleteProductFromCartTry_spec (rt : Runtime N) (svc : Service N) (req : Request N) :
    TrySpec svc (deleteProductFromCartTry rt svc req)
      [.deleteProductFromCart (Props.prop req.params "cid") (Props.prop req.params "pid")]
      (validId (Props.prop req.params "cid") ∧ validId (Props.prop req.params "pid")) 1 := by
  cases hid : invalidIds rt (Props.prop req.params "cid") (Props.prop req.params "pid") with
  | true => constructor <;> simp [deleteProductFromCartTry, hid, nexts, responses, calls]
  | false =>
    have hv := (invalidIds_eq_false_iff rt _ _).1 hid
    cases hs : svc (.deleteProductFromCart (Props.prop req.params "cid")
        (Props.prop req.params "pid")) with
    | error t =>
      constructor <;> simp [deleteProductFromCartTry, hid, hs, nexts, responses, calls]
    | ok cart =>
      cases hp : getProp cart "products" with
      | error t =>
        have hte := getProp_error _ _ _ hp
        constructor <;> simp [deleteProductFromCartTry, hid, hs, hp, nexts, responses, calls, hte]
      | ok items =>
        cases hm : arrayMap items refEntry with
        | error t =>
          have hte := arrayMap_error _ _ _ refEntry_error hm
          constructor <;>
            simp [deleteProductFromCartTry, hid, hs, hp, hm, nexts, responses, calls, hte]
        | ok products =>
          constructor <;>
            simp [deleteProductFromCartTry, hid, hs, hp, hm, nexts, responses, calls, hv]

theorem updateCartTry_spec (rt : Runtime N) (svc : Service N) (req : Request N) :
    TrySpec svc (updateCartTry rt svc req)
      [.updateCart (Props.prop req.params "cid") (req.body.prop "products")]
      (validId (Props.prop req.params "cid")) 1 := by
  cases hb : getProp req.body "products" with
  | error t =>
    have hte := getProp_error _ _ _ hb
    constructor <;> simp [updateCartTry, hb, nexts, responses, calls, hte]
  | ok updateData =>
    obtain ⟨-, rfl⟩ := (getProp_ok_iff _ _ _).1 hb
    cases hid : invalidId rt (Props.prop req.params "cid") with
    | true => constructor <;> simp [updateCartTry, hb, hid, nexts, responses, calls]
    | false =>
      have hv := (invalidId_eq_false_iff rt _).1 hid
      cases hs : svc (.updateCart (Props.prop req.params "cid") (req.body.prop "products")) with
      | error t => constructor <;> simp [updateCartTry, hb, hid, hs, nexts, responses, calls]
      | ok cart =>
        cases hp : getProp cart "products" with
        | error t =>
          have hte := getProp_error _ _ _ hp
          constructor <;> simp [updateCartTry, hb, hid, hs, hp, nexts, responses, calls, hte]
        | ok items =>
          cases hm : arrayMap items fullEntry with
          | error t =>
            have hte := arrayMap_error _ _ _ fullEntry_error hm
            constructor <;> simp [updateCartTry, hb, hid, hs, hp, hm, nexts, responses, calls, hte]
          | ok products =>
            constructor <;>
              simp [updateCartTry, hb, hid, hs, hp, hm, nexts, responses, calls, hv]

theorem updateProductQuantityInCartTry_spec (rt : Runtime N) (svc : Service N)
    (req : Request N) :
    TrySpec svc (updateProductQuantityInCartTry rt svc req)
      [.updateProductQuantityInCart (Props.prop req.params "cid")
        (Props.prop req.params "pid") (req.body.prop "quantity")]
      (validId (Props.prop req.params "cid") ∧ validId (Props.prop req.params "pid")) 1 := by
  cases hid : invalidIds rt (Props.prop req.params "cid") (Props.prop req.params "pid") with
  | true => constructor <;> simp [updateProductQuantityInCartTry, hid, nexts, responses, calls]
  | false =>
    have hv := (invalidIds_eq_false_iff rt _ _).1 hid
    cases hb : getProp req.body "quantity" with
    | error t =>
      have hte := getProp_error _ _ _ hb
      constructor <;> simp [updateProductQuantityInCartTry, hid, hb, nexts, responses, calls, hte]
    | ok quantity =>
      obtain ⟨-, rfl⟩ := (getProp_ok_iff _ _ _).1 hb
      cases hs : svc (.updateProductQuantityInCart (Props.prop req.params "cid")
          (Props.prop req.params "pid") (req.body.prop "quantity")) with
      | error t =>
        constructor <;>
          simp [updateProductQuantityInCartTry, hid, hb, hs, nexts, responses, calls]
      | ok cart =>
        cases hp : getProp cart "products" with
        | error t =>
          have hte := getProp_error _ _ _ hp
          constructor <;>
            simp [updateProductQuantityInCartTry, hid, hb, hs, hp, nexts, responses, calls, hte]
        | ok items =>
          cases hm : arrayMap items refEntry with
          | error t =>
            have hte := arrayMap_error _ _ _ refEntry_error hm
            constructor <;>
              simp [updateProductQuantityInCartTry, hid, hb, hs, hp, hm, nexts, responses,
                calls, hte]
          | ok products =>
            constructor <;>
              simp [updateProductQuantityInCartTry, hid, hb, hs, hp, hm, nexts, responses,
                calls, hv]

theorem deleteAllProductsCartTry_spec (rt : Runtime N) (svc : Service N) (req : Request N) :
    TrySpec svc (deleteAllProductsCartTry rt svc req)
      [.deleteAllProductsFromCart (Props.prop req.params "cid")]
      (validId (Props.prop req.params "cid")) 1 := by
  cases hid : invalidId rt (Props.prop req.params "cid") with
  | true => constructor <;> simp [deleteAllProductsCartTry, hid, nexts, responses, calls]
  | false =>
    have hv := (invalidId_eq_false_iff rt _).1 hid
    cases hs : svc (.deleteAllProductsFromCart (Props.prop req.params "cid")) with
    | error t =>
      constructor <;> simp [deleteAllProductsCartTry, hid, hs, nexts, responses, calls]
    | ok cart =>
      cases hp : getProp cart "id" with
      | error t =>
        have hte := getProp_error _ _ _ hp
        constructor <;> simp [deleteAllProductsCartTry, hid, hs, hp, nexts, responses, calls, hte]
      | ok id =>
        constructor <;>
          simp [deleteAllProductsCartTry, hid, hs, hp, nexts, responses, calls, hv]

end TryBlocks

/-! ## From the try block to the handler -/

section Whole

variable {N : Type}

theorem TrySpec.imp {svc : Service N} {m : Run N (Option (CartDTO N))}
    {expected : List (ServiceCall N)} {P Q : Prop} {n : Nat} (hPQ : P → Q)
    (s : TrySpec svc m expected P n) : TrySpec svc m expected Q n :=
  { no_next := s.no_next
    thrown_quiet := s.thrown_quiet
    ok_shape := fun x hx =>
      ⟨(s.ok_shape x hx).1, (s.ok_shape x hx).2.1, hPQ (s.ok_shape x hx).2.2.1,
        (s.ok_shape x hx).2.2.2⟩
    failing_call := s.failing_call
    calls_sub := s.calls_sub
    thrown_origin := s.thrown_origin }

theorem Handler.run_eq (h : Handler) (rt : Runtime N) (svc : Service N) (req : Request N) :
    h.run rt svc req = Run.tryCatch (h.tryBlock rt svc req) h.recover := by
  cases h <;> rfl

theorem Handler.trySpec (h : Handler) (rt : Runtime N) (svc : Service N) (req : Request N) :
    TrySpec svc (h.tryBlock rt svc req) (expectedCalls h req)
      (∀ k ∈ requiredIds h, validId (Props.prop req.params k))
      (if h = .createCart then 0 else 1) := by
  cases h
  · exact (createCartTry_spec svc).imp (by simp [requiredIds])
  · exact (getCartByIdTry_spec rt svc req).imp (by simp [requiredIds])
  · exact (addProductToCartTry_spec rt svc req).imp (by simp [requiredIds])
  · exact (deleteProductFromCartTry_spec rt svc req).imp (by simp [requiredIds])
  · exact (updateCartTry_spec rt svc req).imp (by simp [requiredIds])
  · exact (updateProductQuantityInCartTry_spec rt svc req).imp (by simp [requiredIds])
  · exact (deleteAllProductsCartTry_spec rt svc req).imp (by simp [requiredIds])

theorem Handler.recover_custom (h : Handler) (e : CustomError N) :
    h.recover (.custom e) = ⟨[.next e], .ok none⟩ := by
  cases h <;> rfl

theorem Handler.recover_value (h : Handler) (v : JSVal N)
    (hv : h = .addProductToCart → v.isNullish = false) :
    ∃ e, h.recover (.value v) = ⟨[.next e], .ok none⟩ ∧ e.code = .DATABASE_ERROR
      ∧ e.cause = v := by
  cases h
  case addProductToCart =>
    refine ⟨{ name := "Database Error", cause := v, message := v.prop "message",
              code := .DATABASE_ERROR }, ?_, rfl, rfl⟩
    simp [Handler.recover, catchBlockAdd, getProp_ok _ _ (hv rfl)]
  all_goals exact ⟨databaseError v, rfl, rfl, rfl⟩

/-- The shape of a finished handler in terms of its try block. -/
theorem Handler.run_cases (h : Handler) (rt : Runtime N) (svc : Service N) (req : Request N) :
    (∃ x, (h.tryBlock rt svc req).result = .ok x
        ∧ h.run rt svc req = ⟨(h.tryBlock rt svc req).events, .ok x⟩)
    ∨ (∃ t, (h.tryBlock rt svc req).result = .error t
        ∧ h.run rt svc req =
          ⟨(h.tryBlock rt svc req).events ++ (h.recover t).events, (h.recover t).result⟩) := by
  rw [Handler.run_eq]
  rcases hm : h.tryBlock rt svc req with ⟨es, r⟩
  cases r with
  | ok x => exact Or.inl ⟨x, rfl, rfl⟩
  | error t => exact Or.inr ⟨t, rfl, rfl⟩

end Whole

/-! ## The claims -/

section Claims

variable {N : Type}

theorem Handler.recover_quiet (h : Handler) (t : Thrown N) :
    calls (h.recover t) = [] ∧ responses (h.recover t) = []
      ∧ ∀ dto, (h.recover t).result ≠ .ok (some dto) := by
  cases t with
  | custom e => rw [Handler.recover_custom]; simp [calls, responses, nexts]
  | value v =>
    cases hv : v.isNullish with
    | false =>
      obtain ⟨e, he, -⟩ := h.recover_value v (fun _ => hv)
      rw [he]; simp [calls, responses, nexts]
    | true =>
      cases h
      case addProductToCart =>
        simp [Handler.recover, catchBlockAdd, getProp, hv, calls, responses, nexts]
      all_goals simp [Handler.recover, catchBlock, calls, responses, nexts]

theorem calls_append {α β γ : Type} (es es' : List (Event N)) (r : Except (Thrown N) α)
    (r' : Except (Thrown N) β) (r'' : Except (Thrown N) γ) :
    calls (⟨es ++ es', r⟩ : Run N α)
      = calls (⟨es, r'⟩ : Run N β) ++ calls (⟨es', r''⟩ : Run N γ) := by
  simp [calls]

theorem nexts_append {α β γ : Type} (es es' : List (Event N)) (r : Except (Thrown N) α)
    (r' : Except (Thrown N) β) (r'' : Except (Thrown N) γ) :
    nexts (⟨es ++ es', r⟩ : Run N α)
      = nexts (⟨es, r'⟩ : Run N β) ++ nexts (⟨es', r''⟩ : Run N γ) := by
  simp [nexts]

theorem responses_append {α β γ : Type} (es es' : List (Event N)) (r : Except (Thrown N) α)
    (r' : Except (Thrown N) β) (r'' : Except (Thrown N) γ) :
    responses (⟨es ++ es', r⟩ : Run N α)
      = responses (⟨es, r'⟩ : Run N β) ++ responses (⟨es', r''⟩ : Run N γ) := by
  simp [responses]

/-- What a handler whose try block threw `t` looks like from outside. -/
theorem Handler.run_thrown (h : Handler) (rt : Runtime N) (svc : Service N) (req : Request N)
    (t : Thrown N) (ht : (h.tryBlock rt svc req).result = .error t) :
    calls (h.run rt svc req) = calls (h.tryBlock rt svc req)
      ∧ responses (h.run rt svc req) = []
      ∧ nexts (h.run rt svc req) = nexts (h.recover t)
      ∧ (h.run rt svc req).result = (h.recover t).result := by
  have spec := h.trySpec rt svc req
  have hq := h.recover_quiet t
  have h1 := spec.no_next
  have h2 := spec.thrown_quiet t ht
  rcases h.run_cases rt svc req with ⟨x, hx, -⟩ | ⟨t', ht', hrun⟩
  · rw [hx] at ht; cases ht
  · rw [ht'] at ht; cases ht
    rw [hrun]
    simp only [calls, responses, nexts] at hq h1 h2 ⊢
    simp [hq.1, hq.2.1, h1, h2]

/-- What a handler whose try block completed with `x` looks like from outside. -/
theorem Handler.run_completed (h : Handler) (rt : Runtime N) (svc : Service N)
    (req : Request N) (x : Option (CartDTO N))
    (hx : (h.tryBlock rt svc req).result = .ok x) :
    calls (h.run rt svc req) = calls (h.tryBlock rt svc req)
      ∧ responses (h.run rt svc req) = responses (h.tryBlock rt svc req)
      ∧ nexts (h.run rt svc req) = []
      ∧ (h.run rt svc req).result = .ok x := by
  have spec := h.trySpec rt svc req
  have h1 := spec.no_next
  rcases h.run_cases rt svc req with ⟨x', hx', hrun⟩ | ⟨t', ht', -⟩
  · rw [hx'] at hx; cases hx
    rw [hrun]
    simp only [calls, responses, nexts] at h1 ⊢
    simp [h1]
  · rw [ht'] at hx; cases hx

/-- A handler whose try block threw calls `next` exactly once and produces no
response, unless the catch block of `addProductToCart` itself throws on a
rejection with `null` or `undefined`. -/
theorem Handler.run_thrown_endsInError (h : Handler) (rt : Runtime N) (svc : Service N)
    (req : Request N) (t : Thrown N) (ht : (h.tryBlock rt svc req).result = .error t)
    (hsvc : h = .addProductToCart → ∀ c v, svc c = .error (.value v) → v.isNullish = false) :
    EndsInError (h.run rt svc req) := by
  obtain ⟨-, hr, hn, -⟩ := h.run_thrown rt svc req t ht
  have hone : ∃ e, h.recover t = ⟨[.next e], .ok none⟩ := by
    cases t with
    | custom e => exact ⟨e, h.recover_custom e⟩
    | value v =>
      have hv : h = .addProductToCart → v.isNullish = false := by
        intro hadd
        rcases (h.trySpec rt svc req).thrown_origin _ ht with ⟨c, -, hc⟩ | ⟨e, he⟩ | hte
        · exact hsvc hadd c v hc
        · cases he
        · obtain ⟨w, hw, hnull⟩ := isTypeError_not_nullish _ hte
          cases hw
          exact hnull
      obtain ⟨e, he, -⟩ := h.recover_value v hv
      exact ⟨e, he⟩
  obtain ⟨e, he⟩ := hone
  rw [he] at hn
  have hn' : nexts (h.run rt svc req) = [e] := by simpa [nexts] using hn
  simp [EndsInError, hr, hn']

/-- C4. In every handler, if the error thrown inside the try block is already
a `CustomError` (raised by the handler itself, or by a service call the handler
made), `next` receives exactly that error, once and unchanged in name, message,
cause and code; no response is produced and the handler completes normally:
the error is not wrapped into a `DATABASE_ERROR`. -/
theorem customError_forwarded_unchanged (h : Handler) (rt : Runtime N) (svc : Service N)
    (req : Request N) (e : CustomError N)
    (hthrow : (h.tryBlock rt svc req).result = .error (.custom e)
      ∨ ∃ c ∈ calls (h.run rt svc req), svc c = .error (.custom e)) :
    nexts (h.run rt svc req) = [e] ∧ responses (h.run rt svc req) = []
      ∧ (h.run rt svc req).result = .ok none := by
  have hthrown : (h.tryBlock rt svc req).result = .error (.custom e) := by
    rcases hthrow with hthrow | ⟨c, hc, hsvc⟩
    · exact hthrow
    · refine (h.trySpec rt svc req).failing_call c ?_ _ hsvc
      rcases hr : (h.tryBlock rt svc req).result with t | x
      · rw [← (h.run_thrown rt svc req t hr).1]; exact hc
      · rw [← (h.run_completed rt svc req x hr).1]; exact hc
  obtain ⟨-, hr, hn, hres⟩ := h.run_thrown rt svc req _ hthrown
  rw [Handler.recover_custom] at hn hres
  exact ⟨by simpa [nexts] using hn, hr, hres⟩

/-- C3 (amended). In every handler, if a service call the handler makes is
rejected with a value that is not a `CustomError` (and, in `addProductToCart`,
is neither `null` nor `undefined`), `next` receives exactly one error, its code
is `DATABASE_ERROR`, its cause is the rejected value, and no response is
produced. -/
theorem service_failure_wrapped_as_database_error (h : Handler) (rt : Runtime N)
    (svc : Service N) (req : Request N) (c : ServiceCall N) (v : JSVal N)
    (hcall : c ∈ calls (h.run rt svc req)) (hfail : svc c = .error (.value v))
    (hv : h = .addProductToCart → v.isNullish = false) :
    ∃ e, nexts (h.run rt svc req) = [e] ∧ e.code = .DATABASE_ERROR ∧ e.cause = v
      ∧ responses (h.run rt svc req) = [] := by
  have spec := h.trySpec rt svc req
  have hc : c ∈ calls (h.tryBlock rt svc req) := by
    rcases hr : (h.tryBlock rt svc req).result with t | x
    · rw [← (h.run_thrown rt svc req t hr).1]; exact hcall
    · rw [← (h.run_completed rt svc req x hr).1]; exact hcall
  have ht := spec.failing_call c hc _ hfail
  obtain ⟨-, hr, hn, -⟩ := h.run_thrown rt svc req _ ht
  obtain ⟨e, he, hcode, hcause⟩ := h.recover_value v hv
  rw [he] at hn
  exact ⟨e, by simpa [nexts] using hn, hcode, hcause, hr⟩

/-- C5 (amended). Each of the six handlers other than `createCart`, on every
request and every outcome of its service calls (for `addProductToCart`:
provided no service rejects with `null` or `undefined`), ends in exactly one of
two ways: one response and no call to `next`, or one call to `next` and no
response. `createCart` either calls `next` exactly once without a response, or
returns its DTO, producing no response and not calling `next`. -/
theorem handler_ends_in_response_or_error (h : Handler) (rt : Runtime N) (svc : Service N)
    (req : Request N)
    (hsvc : h = .addProductToCart → ∀ c v, svc c = .error (.value v) → v.isNullish = false) :
    (h ≠ .createCart →
        EndsInResponse (h.run rt svc req) ∨ EndsInError (h.run rt svc req))
    ∧ (h = .createCart →
        EndsInError (h.run rt svc req)
        ∨ ((∃ dto, (h.run rt svc req).result = .ok (some dto))
            ∧ (responses (h.run rt svc req)).length = 0
            ∧ (nexts (h.run rt svc req)).length = 0))
    ∧ ¬ (EndsInResponse (h.run rt svc req) ∧ EndsInError (h.run rt svc req)) := by
  have spec := h.trySpec rt svc req
  refine ⟨?_, ?_, ?_⟩
  · intro hne
    rcases hr : (h.tryBlock rt svc req).result with t | x
    · exact Or.inr (h.run_thrown_endsInError rt svc req t hr hsvc)
    · obtain ⟨-, hresp, hn, -⟩ := h.run_completed rt svc req x hr
      have := (spec.ok_shape x hr).1
      left
      simp [EndsInResponse, hresp, hn, this, hne]
  · intro hc
    rcases hr : (h.tryBlock rt svc req).result with t | x
    · exact Or.inl (h.run_thrown_endsInError rt svc req t hr hsvc)
    · obtain ⟨-, hresp, hn, hres⟩ := h.run_completed rt svc req x hr
      obtain ⟨hlen, -, -, -, hdto⟩ := spec.ok_shape x hr
      obtain ⟨dto, rfl⟩ := hdto (by simp [hc])
      right
      rw [if_pos hc] at hlen
      exact ⟨⟨dto, hres⟩, by rw [hresp]; exact hlen, by simp [hn]⟩
  · simp only [EndsInResponse, EndsInError]
    omega

/-- C8. On every successful path (a response was produced, or `createCart`
returned its DTO) the handler made exactly the service calls the specification
lists, in order and with the request's own values as arguments: one
cart-service operation and, for `addProductToCart`, `getProductById(pid)`
before it; and every identifier the handler requires was a non-empty string. -/
theorem success_makes_expected_calls (h : Handler) (rt : Runtime N) (svc : Service N)
    (req : Request N) (hs : Succeeded (h.run rt svc req)) :
    calls (h.run rt svc req) = expectedCalls h req
      ∧ ∀ k ∈ requiredIds h, validId (Props.prop req.params k) := by
  have spec := h.trySpec rt svc req
  rcases hr : (h.tryBlock rt svc req).result with t | x
  · obtain ⟨-, hresp, -, hres⟩ := h.run_thrown rt svc req t hr
    rcases hs with hs | ⟨dto, hs⟩
    · simp [hresp] at hs
    · rw [hres] at hs
      exact absurd hs ((h.recover_quiet t).2.2 dto)
  · obtain ⟨hcalls, -, -, -⟩ := h.run_completed rt svc req x hr
    obtain ⟨-, hexp, hids, -⟩ := spec.ok_shape x hr
    exact ⟨hcalls.trans hexp, hids⟩

theorem invalidId_eq_true_iff (rt : Runtime N) (v : JSVal N) :
    invalidId rt v = true ↔ ¬ validId v := by
  rw [← invalidId_eq_false_iff rt v]
  cases invalidId rt v <;> simp

theorem invalidIds_eq_true_iff (rt : Runtime N) (c p : JSVal N) :
    invalidIds rt c p = true ↔ ¬ (validId c ∧ validId p) := by
  rw [← invalidIds_eq_false_iff rt c p]
  cases invalidIds rt c p <;> simp

/-- Where the identifier check does come first: in every handler that takes
identifiers, a request with a required identifier missing, empty or not a
string makes the handler forward one `INVALID_IDS_ERROR` to `next` and do
nothing else, for `updateCart` provided `req.body` can be read. -/
theorem invalid_ids_rejected (h : Handler) (rt : Runtime N) (svc : Service N)
    (req : Request N) (hbody : h = .updateCart → req.body.isNullish = false)
    (hbad : ∃ k ∈ requiredIds h, ¬ validId (Props.prop req.params k)) :
    ∃ e, (h.run rt svc req).events = [.next e] ∧ e.code = .INVALID_IDS_ERROR := by
  cases h
  case createCart => simp [requiredIds] at hbad
  case getCartById =>
    have hid := (invalidId_eq_true_iff rt (Props.prop req.params "cid")).2
      (by simpa [requiredIds] using hbad)
    simp [Handler.run, getCartById, getCartByIdTry, hid, catchBlock]
  case addProductToCart =>
    have hid := (invalidIds_eq_true_iff rt (Props.prop req.params "cid")
      (Props.prop req.params "pid")).2 (by simp [requiredIds] at hbad; tauto)
    simp [Handler.run, addProductToCart, addProductToCartTry, hid, catchBlockAdd]
  case deleteProductFromCart =>
    have hid := (invalidIds_eq_true_iff rt (Props.prop req.params "cid")
      (Props.prop req.params "pid")).2 (by simp [requiredIds] at hbad; tauto)
    simp [Handler.run, deleteProductFromCart, deleteProductFromCartTry, hid,
      catchBlock]
  case updateCart =>
    have hid := (invalidId_eq_true_iff rt (Props.prop req.params "cid")).2
      (by simpa [requiredIds] using hbad)
    simp [Handler.run, updateCart, updateCartTry, hid, catchBlock,
      getProp_ok _ _ (hbody rfl)]
  case updateProductQuantityInCart =>
    have hid := (invalidIds_eq_true_iff rt (Props.prop req.params "cid")
      (Props.prop req.params "pid")).2 (by simp [requiredIds] at hbad; tauto)
    simp [Handler.run, updateProductQuantityInCart,
      updateProductQuantityInCartTry, hid, catchBlock]
  case deleteAllProductsCart =>
    have hid := (invalidId_eq_true_iff rt (Props.prop req.params "cid")).2
      (by simpa [requiredIds] using hbad)
    simp [Handler.run, deleteAllProductsCart, deleteAllProductsCartTry, hid,
      catchBlock]

/-- C1. At a request with no `cid` and no body, `updateCart` reads
`req.body.products` before it checks the identifier: the `TypeError` of that
read is wrapped, `next` receives a `DATABASE_ERROR` and not the
`INVALID_IDS_ERROR` the claim requires (no service is called). The sibling
`updateProductQuantityInCart`, which reads `req.body` after the check, answers
the same request with `INVALID_IDS_ERROR`. -/
theorem updateCart_reads_body_before_id_check :
    Props.prop reqNoBody.params "cid" = .undefined
    ∧ (updateCart testRuntime svcShop reqNoBody).events
        = [.next (databaseError (typeError "Cannot read properties of undefined or null"))]
    ∧ (nexts (updateCart testRuntime svcShop reqNoBody)).map (fun e => e.code)
        = [.DATABASE_ERROR]
    ∧ (nexts (updateProductQuantityInCart testRuntime svcShop reqNoBody)).map (fun e => e.code)
        = [.INVALID_IDS_ERROR]
    ∧ EErrors.DATABASE_ERROR ≠ EErrors.INVALID_IDS_ERROR :=
  ⟨rfl, rfl, rfl, rfl, by decide⟩

/-- C2. In `addProductToCart`, when both identifiers are non-empty strings,
the user has role "premium" and the product returned by
`productService.getProductById(pid)` has an `owner` strictly equal to the
user's `email`, the handler calls the product service, forwards to `next` one
error whose code is `UNAUTHORIZED_ERROR`, and does nothing else: it never calls
`cartService.addProductToCart` and renders nothing. -/
theorem addProductToCart_owner_unauthorized (rt : Runtime N) (svc : Service N)
    (req : Request N) (product : JSVal N)
    (hcid : validId (Props.prop req.params "cid"))
    (hpid : validId (Props.prop req.params "pid"))
    (hprod : svc (.getProductById (Props.prop req.params "pid")) = .ok product)
    (hproduct : product.isNullish = false)
    (hrole : req.user.prop "role" = .str "premium")
    (hown : JSVal.strictEq rt (product.prop "owner") (req.user.prop "email") = true) :
    (addProductToCart rt svc req).events =
      [.call (.getProductById (Props.prop req.params "pid")),
       .next (unauthorizedError rt req.user product)]
    ∧ (unauthorizedError rt req.user product).code = .UNAUTHORIZED_ERROR := by
  have hids := (invalidIds_eq_false_iff rt _ _).2 ⟨hcid, hpid⟩
  have huser : req.user.isNullish = false := by
    cases hu : req.user <;> simp [hu, JSVal.prop, JSVal.isNullish] at hrole ⊢
  have hguard : ownsProduct rt req.user product = .ok true := by
    simp [ownsProduct, getProp_ok _ _ huser, getProp_ok _ _ hproduct, hrole, hown]
  simp [addProductToCart, addProductToCartTry, hids, hprod, hguard, catchBlockAdd,
    unauthorizedError]

/-- C6. For every request, when `cartService.createCart` resolves with a cart
record (a value that is neither `null` nor `undefined`), `createCart` returns a
`CartDTO` whose identifier is that record's `id` and whose product list is
empty; the only event is the service call. -/
theorem createCart_returns_empty_dto (rt : Runtime N) (svc : Service N)
    (req : Request N) (cart : JSVal N)
    (hsvc : svc .createCart = .ok cart) (hrec : cart.isNullish = false) :
    (createCart rt svc req).result = .ok (some { id := cart.prop "id", products := [] })
    ∧ (createCart rt svc req).events = [.call .createCart] := by
  simp [createCart, createCartTry, hsvc, getProp_ok _ _ hrec]

theorem Handler.calls_run_sub (h : Handler) (rt : Runtime N) (svc : Service N)
    (req : Request N) (c : ServiceCall N) (hc : c ∈ calls (h.run rt svc req)) :
    c ∈ expectedCalls h req := by
  apply (h.trySpec rt svc req).calls_sub
  rcases hr : (h.tryBlock rt svc req).result with t | x
  · rw [← (h.run_thrown rt svc req t hr).1]; exact hc
  · rw [← (h.run_completed rt svc req x hr).1]; exact hc

theorem fullProjection_price_quantity (item : JSVal N) :
    (Props.prop (fullProjection item) "price", Props.prop (fullProjection item) "quantity")
      = ((item.prop "_id").prop "price", item.prop "quantity") := by
  simp [fullProjection, Props.prop]

theorem refProjection_price_quantity (item : JSVal N) :
    Props.prop (refProjection item) "price" = .undefined
      ∧ Props.prop (refProjection item) "quantity" = item.prop "quantity" := by
  simp [refProjection, Props.prop]

theorem arrayMap_refEntry (cart : JSVal N) (items : List (JSVal N))
    (hcart : IsCartRecord cart items) :
    cart.isNullish = false
      ∧ arrayMap (cart.prop "products") refEntry = .ok (items.map refProjection) := by
  obtain ⟨⟨r, hr⟩, hline⟩ := hcart
  refine ⟨isNullish_of_prop_arr _ _ _ _ hr, ?_⟩
  rw [hr]
  exact mapExcept_ok refEntry refProjection items (fun it hit => refEntry_ok it (hline it hit))

theorem arrayMap_fullEntry (cart : JSVal N) (items : List (JSVal N))
    (hcart : IsCartRecord cart items) (href : ReferencesProducts items) :
    cart.isNullish = false
      ∧ arrayMap (cart.prop "products") fullEntry = .ok (items.map fullProjection) := by
  obtain ⟨⟨r, hr⟩, hline⟩ := hcart
  refine ⟨isNullish_of_prop_arr _ _ _ _ hr, ?_⟩
  rw [hr]
  exact mapExcept_ok fullEntry fullProjection items
    (fun it hit => fullEntry_ok it (hline it hit) (href it hit))

/-- A sum that has met `NaN` stays `NaN`. -/
theorem foldl_nan (rt : Runtime N) (ps : List (Props N))
    (hp : ∀ p ∈ ps, Props.prop p "price" = .undefined) :
    ps.foldl (fun acc product =>
        rt.add acc (rt.mul (rt.toNumber (Props.prop product "price"))
                           (rt.toNumber (Props.prop product "quantity")))) rt.nan = rt.nan := by
  induction ps with
  | nil => rfl
  | cons p ps ih =>
    have hpp := hp p (List.mem_cons_self p ps)
    simp only [List.foldl_cons, hpp, rt.toNumber_undefined, rt.mul_nan, rt.add_nan]
    exact ih (fun q hq => hp q (List.mem_cons_of_mem p hq))

theorem totalOf_refProjection (rt : Runtime N) (items : List (JSVal N)) :
    totalOf rt (items.map refProjection) = if items.isEmpty then rt.zero else rt.nan := by
  cases items with
  | nil => rfl
  | cons it items =>
    have hp : ∀ p ∈ items.map refProjection, Props.prop p "price" = (.undefined : JSVal N) := by
      intro p hmem
      obtain ⟨x, -, rfl⟩ := List.mem_map.1 hmem
      exact (refProjection_price_quantity x).1
    simp only [totalOf, List.map_cons, List.foldl_cons, (refProjection_price_quantity it).1,
      rt.toNumber_undefined, rt.mul_nan, rt.add_nan, List.isEmpty_cons]
    exact foldl_nan rt _ hp

theorem foldl_fullProjection (rt : Runtime N) (items : List (JSVal N)) (lines : List (N × N))
    (acc : N)
    (hnum : items.map (fun it => ((it.prop "_id").prop "price", it.prop "quantity"))
      = lines.map (fun pq => (JSVal.num pq.1, JSVal.num pq.2))) :
    (items.map fullProjection).foldl (fun acc product =>
        rt.add acc (rt.mul (rt.toNumber (Props.prop product "price"))
                           (rt.toNumber (Props.prop product "quantity")))) acc
      = lines.foldl (fun acc pq => rt.add acc (rt.mul pq.1 pq.2)) acc := by
  induction items generalizing lines acc with
  | nil =>
    cases lines with
    | nil => rfl
    | cons l ls => simp at hnum
  | cons it items ih =>
    cases lines with
    | nil => simp at hnum
    | cons l ls =>
      simp only [List.map_cons, List.cons.injEq, Prod.mk.injEq] at hnum
      obtain ⟨⟨hprice, hqty⟩, hrest⟩ := hnum
      have hpq := fullProjection_price_quantity it
      simp only [Prod.mk.injEq] at hpq
      simp only [List.map_cons, List.foldl_cons, hpq.1, hpq.2, hprice, hqty, rt.toNumber_num]
      exact ih ls _ hrest

/-- C7. For a request with valid identifiers, whenever the service call made
by the handler returns a cart record with line items `items`, the handler
responds with status 200 and the documented projection and does nothing else:
`deleteProductFromCart` and `updateProductQuantityInCart` send one entry per
line item, in order, holding only the item's product reference as `id` and its
`quantity`; `updateCart` (each item referencing a product) sends one entry per
line item, in order, holding the product's `_id`, `title`, `description`,
`price`, `thumbnail`, `code`, `stock` and the item's `quantity`;
`deleteAllProductsCart` sends an empty list. In particular a cart with no line
items returned after a remove gives an empty product list. -/
theorem json_handlers_return_projection (rt : Runtime N) (svc : Service N)
    (req : Request N) (cart : JSVal N) (items : List (JSVal N))
    (hcid : validId (Props.prop req.params "cid"))
    (hcart : IsCartRecord cart items) :
    (validId (Props.prop req.params "pid") →
      ∀ c ∈ calls (deleteProductFromCart rt svc req), svc c = .ok cart →
        (deleteProductFromCart rt svc req).events
          = [.call c, .json 200 { id := cart.prop "id", products := items.map refProjection }])
    ∧ (validId (Props.prop req.params "pid") →
      ∀ c ∈ calls (updateProductQuantityInCart rt svc req), svc c = .ok cart →
        (updateProductQuantityInCart rt svc req).events
          = [.call c, .json 200 { id := cart.prop "id", products := items.map refProjection }])
    ∧ (ReferencesProducts items →
      ∀ c ∈ calls (updateCart rt svc req), svc c = .ok cart →
        (updateCart rt svc req).events
          = [.call c,
             .json 200 { id := cart.prop "_id", products := items.map fullProjection }])
    ∧ (∀ c ∈ calls (deleteAllProductsCart rt svc req), svc c = .ok cart →
        (deleteAllProductsCart rt svc req).events
          = [.call c, .json 200 { id := cart.prop "id", products := [] }])
    ∧ (validId (Props.prop req.params "pid") → items = [] →
      ∀ c ∈ calls (deleteProductFromCart rt svc req), svc c = .ok cart →
        (deleteProductFromCart rt svc req).events
          = [.call c, .json 200 { id := cart.prop "id", products := [] }]) := by
  have hid := (invalidId_eq_false_iff rt _).2 hcid
  obtain ⟨hnn, href⟩ := arrayMap_refEntry cart items hcart
  have hdel : validId (Props.prop req.params "pid") →
      ∀ c ∈ calls (deleteProductFromCart rt svc req), svc c = .ok cart →
        (deleteProductFromCart rt svc req).events
          = [.call c, .json 200 { id := cart.prop "id", products := items.map refProjection }] := by
    intro hpid c hc hsvc
    have hids := (invalidIds_eq_false_iff rt _ _).2 ⟨hcid, hpid⟩
    have hc' := Handler.calls_run_sub .deleteProductFromCart rt svc req c hc
    simp only [expectedCalls, List.mem_singleton] at hc'
    subst hc'
    simp [deleteProductFromCart, deleteProductFromCartTry, hids, hsvc, getProp_ok _ _ hnn, href]
  refine ⟨hdel, ?_, ?_, ?_, ?_⟩
  · intro hpid c hc hsvc
    have hids := (invalidIds_eq_false_iff rt _ _).2 ⟨hcid, hpid⟩
    have hc' := Handler.calls_run_sub .updateProductQuantityInCart rt svc req c hc
    simp only [expectedCalls, List.mem_singleton] at hc'
    subst hc'
    cases hb : req.body.isNullish with
    | true =>
      simp [updateProductQuantityInCart, updateProductQuantityInCartTry, hids, getProp, hb,
        calls, catchBlock] at hc
    | false =>
      simp [updateProductQuantityInCart, updateProductQuantityInCartTry, hids, hsvc,
        getProp_ok _ _ hnn, getProp_ok _ _ hb, href]
  · intro hrefs c hc hsvc
    obtain ⟨-, hfull⟩ := arrayMap_fullEntry cart items hcart hrefs
    have hc' := Handler.calls_run_sub .updateCart rt svc req c hc
    simp only [expectedCalls, List.mem_singleton] at hc'
    subst hc'
    cases hb : req.body.isNullish with
    | true => simp [updateCart, updateCartTry, getProp, hb, calls, catchBlock] at hc
    | false =>
      simp [updateCart, updateCartTry, hid, hsvc, getProp_ok _ _ hnn, getProp_ok _ _ hb, hfull]
  · intro c hc hsvc
    have hc' := Handler.calls_run_sub .deleteAllProductsCart rt svc req c hc
    simp only [expectedCalls, List.mem_singleton] at hc'
    subst hc'
    simp [deleteAllProductsCart, deleteAllProductsCartTry, hid, hsvc, getProp_ok _ _ hnn]
  · intro hpid hnil c hc hsvc
    have := hdel hpid c hc hsvc
    rw [hnil] at this
    exact this

/-- C9 (amended). In `addProductToCart`, the total sums `price * quantity`
over a projection whose entries have no `price` field: on the successful path,
for every returned cart record the rendered total is `NaN` when the cart has at
least one line item and `0` when it has none (and `NaN` is not `0`). -/
theorem addProductToCart_total_is_nan (rt : Runtime N) (svc : Service N) (req : Request N)
    (product cart : JSVal N) (items : List (JSVal N))
    (hcid : validId (Props.prop req.params "cid"))
    (hpid : validId (Props.prop req.params "pid"))
    (hprod : svc (.getProductById (Props.prop req.params "pid")) = .ok product)
    (hguard : ownsProduct rt req.user product = .ok false)
    (hsvc : svc (.addProductToCart (Props.prop req.params "cid")
      (Props.prop req.params "pid")) = .ok cart)
    (hcart : IsCartRecord cart items) :
    (addProductToCart rt svc req).events =
      [.call (.getProductById (Props.prop req.params "pid")),
       .call (.addProductToCart (Props.prop req.params "cid") (Props.prop req.params "pid")),
       .render "carts"
         { cart := { id := cart.prop "id", products := items.map refProjection }
           cartId := none
           total := if items.isEmpty then rt.zero else rt.nan }]
    ∧ (∀ entry ∈ items.map refProjection, Props.prop entry "price" = .undefined)
    ∧ rt.nan ≠ rt.zero := by
  have hids := (invalidIds_eq_false_iff rt _ _).2 ⟨hcid, hpid⟩
  obtain ⟨hnn, href⟩ := arrayMap_refEntry cart items hcart
  refine ⟨?_, ?_, rt.nan_ne_zero⟩
  · simp [addProductToCart, addProductToCartTry, hids, hprod, hguard, hsvc,
      getProp_ok _ _ hnn, href, totalOf_refProjection]
  · intro entry hmem
    obtain ⟨x, -, rfl⟩ := List.mem_map.1 hmem
    exact (refProjection_price_quantity x).1

/-- C10. In `getCartById`, for a valid `cid` and a returned cart record whose
line items each reference a product with a numeric price and carry a numeric
quantity (`lines` lists those numbers in order), the handler renders the view
"carts" with a total equal to the sum, taken over the line items in order from
0, of price times quantity, and with one entry per line item carrying that
price and that quantity. -/
theorem getCartById_total_is_sum (rt : Runtime N) (svc : Service N) (req : Request N)
    (cart : JSVal N) (items : List (JSVal N)) (lines : List (N × N))
    (hcid : validId (Props.prop req.params "cid"))
    (hsvc : svc (.getCartById (Props.prop req.params "cid")) = .ok cart)
    (hcart : IsCartRecord cart items) (hrefs : ReferencesProducts items)
    (hnum : items.map (fun it => ((it.prop "_id").prop "price", it.prop "quantity"))
      = lines.map (fun pq => (JSVal.num pq.1, JSVal.num pq.2))) :
    (getCartById rt svc req).events =
      [.call (.getCartById (Props.prop req.params "cid")),
       .render "carts"
         { cart := { id := cart.prop "_id", products := items.map fullProjection }
           cartId := some (cart.prop "_id")
           total := lines.foldl (fun acc pq => rt.add acc (rt.mul pq.1 pq.2)) rt.zero }]
    ∧ (items.map fullProjection).map
        (fun entry => (Props.prop entry "price", Props.prop entry "quantity"))
      = lines.map (fun pq => (JSVal.num pq.1, JSVal.num pq.2)) := by
  have hid := (invalidId_eq_false_iff rt _).2 hcid
  obtain ⟨hnn, hfull⟩ := arrayMap_fullEntry cart items hcart hrefs
  refine ⟨?_, ?_⟩
  · have htot := foldl_fullProjection rt items lines rt.zero hnum
    simp [getCartById, getCartByIdTry, hid, hsvc, getProp_ok _ _ hnn, hfull, totalOf, htot]
  · rw [← hnum, List.map_map]
    exact List.map_congr_left (fun it _ => fullProjection_price_quantity it)

/-! ## The claims on concrete requests -/

/-- C2 on a concrete request: the premium user `userOwner` asks for `productPen`, which they own. -/
theorem addProductToCart_owner_unauthorized_witness :
    (addProductToCart testRuntime svcShop reqOwner).events =
      [.call (.getProductById (.str "p1")),
       .next (unauthorizedError testRuntime userOwner productPen)]
    ∧ (unauthorizedError testRuntime userOwner productPen).code = .UNAUTHORIZED_ERROR :=
  addProductToCart_owner_unauthorized testRuntime svcShop reqOwner productPen
    ⟨"abc", rfl, by decide⟩ ⟨"p1", rfl, by decide⟩ rfl rfl rfl rfl

/-- C3, as stated, fails: `getCartById` calls the cart service, the service
rejects with the `CustomError` `notFound`, and `next` receives `notFound`
itself, whose code is not `DATABASE_ERROR`. -/
theorem service_customError_keeps_its_code :
    calls (getCartById testRuntime svcNotFound reqOther) = [.getCartById (.str "abc")]
    ∧ svcNotFound (.getCartById (.str "abc")) = .error (.custom notFound)
    ∧ nexts (getCartById testRuntime svcNotFound reqOther) = [notFound]
    ∧ notFound.code ≠ .DATABASE_ERROR :=
  ⟨rfl, rfl, rfl, by decide⟩

/-- C3 (amended) on a concrete request: the product service rejects with the driver error `dbDown`. -/
theorem service_failure_wrapped_as_database_error_witness :
    ∃ e, nexts (Handler.run .addProductToCart testRuntime svcDown reqOther) = [e]
      ∧ e.code = .DATABASE_ERROR ∧ e.cause = dbDown
      ∧ responses (Handler.run .addProductToCart testRuntime svcDown reqOther) = [] :=
  service_failure_wrapped_as_database_error .addProductToCart testRuntime svcDown reqOther
    (.getProductById (.str "p1")) dbDown (List.mem_singleton.2 rfl) rfl (fun _ => rfl)

/-- C4 on a concrete request: the cart service rejects with the `CustomError` `notFound`. -/
theorem customError_forwarded_unchanged_witness :
    nexts (Handler.run .getCartById testRuntime svcNotFound reqOther) = [notFound]
      ∧ responses (Handler.run .getCartById testRuntime svcNotFound reqOther) = []
      ∧ (Handler.run .getCartById testRuntime svcNotFound reqOther).result = .ok none :=
  customError_forwarded_unchanged .getCartById testRuntime svcNotFound reqOther notFound
    (Or.inl rfl)

/-- C5, as stated, fails for `createCart`: when the service resolves, the
handler returns its DTO, produces no response and does not call `next`. -/
theorem createCart_success_neither_responds_nor_forwards :
    ¬ (EndsInResponse (Handler.run .createCart testRuntime svcShop reqOther)
        ∨ EndsInError (Handler.run .createCart testRuntime svcShop reqOther)) := by
  unfold EndsInResponse EndsInError
  decide

/-- C5 (amended) on a concrete request: `addProductToCart` with services that resolve. -/
theorem handler_ends_in_response_or_error_witness :
    EndsInResponse (Handler.run .addProductToCart testRuntime svcShop reqOther)
      ∨ EndsInError (Handler.run .addProductToCart testRuntime svcShop reqOther) :=
  (handler_ends_in_response_or_error .addProductToCart testRuntime svcShop reqOther
    (fun _ c v hc => by cases c <;> cases hc)).1 (by decide)

/-- C6 on a concrete request: the service resolves with `cartOneItem`, whose `id` is "c1". -/
theorem createCart_returns_empty_dto_witness :
    (createCart testRuntime svcShop reqOther).result
        = .ok (some { id := .str "c1", products := [] })
    ∧ (createCart testRuntime svcShop reqOther).events = [.call .createCart] :=
  createCart_returns_empty_dto testRuntime svcShop reqOther cartOneItem rfl rfl

/-- C7 on a concrete request: the four JSON handlers with services that return `cartOneItem`. -/
theorem json_handlers_return_projection_witness :
    (deleteProductFromCart testRuntime svcShop reqOther).events
        = [.call (.deleteProductFromCart (.str "abc") (.str "p1")),
           .json 200 { id := .str "c1",
                       products := [[("id", productPen), ("quantity", .num (some 3))]] }]
    ∧ (updateProductQuantityInCart testRuntime svcShop reqOther).events
        = [.call (.updateProductQuantityInCart (.str "abc") (.str "p1") (.num (some 5))),
           .json 200 { id := .str "c1",
                       products := [[("id", productPen), ("quantity", .num (some 3))]] }]
    ∧ (updateCart testRuntime svcShop reqOther).events
        = [.call (.updateCart (.str "abc") (.arr 8 [])),
           .json 200 { id := .str "c1", products := [fullProjection lineItem] }]
    ∧ (deleteAllProductsCart testRuntime svcShop reqOther).events
        = [.call (.deleteAllProductsFromCart (.str "abc")),
           .json 200 { id := .str "c1", products := [] }] :=
  have t := json_handlers_return_projection testRuntime svcShop reqOther cartOneItem [lineItem]
    ⟨"abc", rfl, by decide⟩
    ⟨⟨2, rfl⟩, fun it hit => by rw [List.mem_singleton.1 hit]; rfl⟩
  ⟨t.1 ⟨"p1", rfl, by decide⟩ _ (List.mem_singleton.2 rfl) rfl,
   t.2.1 ⟨"p1", rfl, by decide⟩ _ (List.mem_singleton.2 rfl) rfl,
   t.2.2.1 (fun it hit => by rw [List.mem_singleton.1 hit]; rfl) _ (List.mem_singleton.2 rfl)
     rfl,
   t.2.2.2.1 _ (List.mem_singleton.2 rfl) rfl⟩

/-- C8 on a concrete request: `addProductToCart` succeeds after exactly two calls. -/
theorem success_makes_expected_calls_witness :
    calls (Handler.run .addProductToCart testRuntime svcShop reqOther)
        = [.getProductById (.str "p1"), .addProductToCart (.str "abc") (.str "p1")]
    ∧ ∀ k ∈ ["cid", "pid"], validId (Props.prop reqOther.params k) :=
  success_makes_expected_calls .addProductToCart testRuntime svcShop reqOther (Or.inl rfl)

/-- C9, as stated, fails for `getCartById`: its projection keeps `price`, and
for a cart with one line item (price 2, quantity 3) the rendered total is the
number 6, not `NaN`. -/
theorem getCartById_total_is_a_number :
    svcShop (.getCartById (.str "abc")) = .ok cartOneItem
    ∧ cartOneItem.prop "products" = .arr 2 [lineItem]
    ∧ renderedTotals (getCartById testRuntime svcShop reqOther) = [some 6]
    ∧ (some 6 : TNum) ≠ testRuntime.nan :=
  ⟨rfl, rfl, rfl, by decide⟩

/-- C9 (amended) on a concrete request: one line item, rendered total `NaN`. -/
theorem addProductToCart_total_is_nan_witness :
    (addProductToCart testRuntime svcShop reqOther).events =
      [.call (.getProductById (.str "p1")),
       .call (.addProductToCart (.str "abc") (.str "p1")),
       .render "carts"
         { cart := { id := .str "c1",
                     products := [[("id", productPen), ("quantity", .num (some 3))]] }
           cartId := none
           total := testRuntime.nan }]
    ∧ (∀ entry ∈ [lineItem].map refProjection,
        Props.prop entry "price" = (.undefined : JSVal TNum))
    ∧ testRuntime.nan ≠ testRuntime.zero :=
  addProductToCart_total_is_nan testRuntime svcShop reqOther productPen cartOneItem [lineItem]
    ⟨"abc", rfl, by decide⟩ ⟨"p1", rfl, by decide⟩ rfl rfl rfl
    ⟨⟨2, rfl⟩, fun it hit => by rw [List.mem_singleton.1 hit]; rfl⟩

/-- C10 on a concrete request: one line item of price 2 and quantity 3, rendered total 6. -/
theorem getCartById_total_is_sum_witness :
    (getCartById testRuntime svcShop reqOther).events =
      [.call (.getCartById (.str "abc")),
       .render "carts"
         { cart := { id := .str "c1", products := [fullProjection lineItem] }
           cartId := some (.str "c1")
           total := some 6 }]
    ∧ ([lineItem].map fullProjection).map
        (fun entry => (Props.prop entry "price", Props.prop entry "quantity"))
      = [((.num (some 2) : JSVal TNum), (.num (some 3) : JSVal TNum))] :=
  getCartById_total_is_sum testRuntime svcShop reqOther cartOneItem [lineItem]
    [(some 2, some 3)] ⟨"abc", rfl, by decide⟩ rfl
    ⟨⟨2, rfl⟩, fun it hit => by rw [List.mem_singleton.1 hit]; rfl⟩
    (fun it hit => by rw [List.mem_singleton.1 hit]; rfl) rfl

end Claims

end CartController
